import Mathlib

/-!
Verification of the connection/dispatch engine of `go-twitch-eventsub`
(`conn.go`): envelope routing in `handleMessage`, the notification router
`handleNotification`, the reconnect handoff, `Close`, and the pre-loop
phase of `ConnectWithContext`.

Shallow embedding conventions:
* JSON decoding (`encoding/json`) is external; a raw frame is embedded as a
  `Frame` record carrying, for each possible decode target, the result the
  Go `json.Unmarshal` call would produce for these bytes (`none` = decode
  error).  `json.Unmarshal(data, ptr)` into a `*T` either fails or yields a
  `T`, which the per-target `Option` fields encode.
* Handler fields of `Client` are booleans: `true` = a callback is
  registered (non-nil), `false` = nil.  Invoking a handler (Go spawns it
  with `go f(v)`, see `callFunc`, conn.go lines 35-39) is recorded as an
  `Effect` in an emitted effect list, in program order.
* The error sink `c.onError` is always non-nil (set by `NewClientWithUrl`,
  conn.go line 116); a call to it is an `Effect.errorCall`.
* The global `subMetadata` map and the websocket dial live outside the
  dispatch code; they are passed in as the environment `NotifEnv`, so every
  theorem quantifies over all possible contents of that map and all dial
  outcomes.
* Transports (websocket connections, `c.ws`) are identified by `Nat` ids.
-/

namespace Twitch

/-- Outer envelope metadata, the sub-structure `parseBaseMessage`
(conn.go lines 390-402) extracts from a raw frame.  Field shapes follow the
wire protocol of spec section 6 (`metadata.message_type`,
`metadata.message_timestamp`). -/
structure MessageMetadata where
  MessageId : String
  MessageType : String
  MessageTimestamp : String
deriving DecidableEq, Repr

/-- Subscription descriptor carried in a notification payload
(`subscription.type`, `subscription.version`, `subscription.condition`). -/
structure PayloadSubscription where
  type : String
  version : String
  condition : String
deriving DecidableEq, Repr

/-- Payload of `session_welcome`: session id and keepalive timeout. -/
structure WelcomePayloadSession where
  Id : String
  KeepaliveTimeoutSeconds : Nat
deriving DecidableEq, Repr

structure WelcomePayload where
  Session : WelcomePayloadSession
deriving DecidableEq, Repr

structure WelcomeMessage where
  Metadata : MessageMetadata
  Payload : WelcomePayload
deriving DecidableEq, Repr

structure KeepAliveMessage where
  Metadata : MessageMetadata
deriving DecidableEq, Repr

/-- Notification payload: the subscription descriptor and the raw event
bytes.  The Go `Event` field is a `json.RawMessage`; its `MarshalJSON`
(called at conn.go line 258) returns the raw bytes unchanged and never
fails, so `Event` is embedded directly as the byte string. -/
structure NotificationPayload where
  Subscription : PayloadSubscription
  Event : String
deriving DecidableEq, Repr

structure NotificationMessage where
  Metadata : MessageMetadata
  Payload : NotificationPayload
deriving DecidableEq, Repr

/-- Payload of `session_reconnect`: the new connection address
(`message.Payload.Session.ReconnectUrl`, conn.go line 226). -/
structure ReconnectPayloadSession where
  ReconnectUrl : String
deriving DecidableEq, Repr

structure ReconnectPayload where
  Session : ReconnectPayloadSession
deriving DecidableEq, Repr

structure ReconnectMessage where
  Metadata : MessageMetadata
  Payload : ReconnectPayload
deriving DecidableEq, Repr

structure RevokeMessage where
  Metadata : MessageMetadata
deriving DecidableEq, Repr

/-- The dynamic type of the value allocated by a `messageTypeMap`
constructor (`func() any`, conn.go lines 20-33).  `otherGen t` stands for a
generator allocating a value of some type `t` outside the five variants the
`handleMessage` switch handles; it exists so that the reachability of the
switch's `default` branch is a genuine question about the map's contents. -/
inductive PtrGen where
  | welcomeGen
  | keepAliveGen
  | notificationGen
  | reconnectGen
  | revokeGen
  | otherGen (typeName : String)
deriving DecidableEq, Repr

/-- A dynamic Go value as seen by the type switch of `handleMessage`
(conn.go lines 197-220): one of the five message variants, or a value of
any other dynamic type. -/
inductive DynMessage where
  | welcome (message : WelcomeMessage)
  | keepAlive (message : KeepAliveMessage)
  | notification (message : NotificationMessage)
  | reconnect (message : ReconnectMessage)
  | revoke (message : RevokeMessage)
  | other (typeName : String)
deriving DecidableEq, Repr

/-- `messageTypeMap` (conn.go lines 20-27): the mapping from discriminant
string to message constructor. -/
def messageTypeMap (messageType : String) : Option PtrGen :=
  if messageType = "session_welcome" then some .welcomeGen
  else if messageType = "session_keepalive" then some .keepAliveGen
  else if messageType = "notification" then some .notificationGen
  else if messageType = "session_reconnect" then some .reconnectGen
  else if messageType = "revocation" then some .revokeGen
  else none

/-- A raw frame (the `data []byte` read from the websocket), embedded
together with the outcome every relevant `json.Unmarshal` call would have
on these bytes: `baseMeta` is the result of `parseBaseMessage data`
(conn.go lines 390-402), `asWelcome` the result of unmarshalling into a
`*WelcomeMessage`, and so on; `none` means that unmarshal returns an
error.  `asOther t` says whether unmarshalling into a pointer of an
unrelated type named `t` would succeed. -/
structure Frame where
  raw : String
  baseMeta : Option MessageMetadata
  asWelcome : Option WelcomeMessage
  asKeepAlive : Option KeepAliveMessage
  asNotification : Option NotificationMessage
  asReconnect : Option ReconnectMessage
  asRevoke : Option RevokeMessage
  asOther : String → Bool

/-- `json.Unmarshal(data, genMessage())` (conn.go lines 191-192): the
generator picks the allocation target; unmarshalling into a `*T` yields a
`T` or fails. -/
def unmarshal (f : Frame) : PtrGen → Option DynMessage
  | .welcomeGen => f.asWelcome.map .welcome
  | .keepAliveGen => f.asKeepAlive.map .keepAlive
  | .notificationGen => f.asNotification.map .notification
  | .reconnectGen => f.asReconnect.map .reconnect
  | .revokeGen => f.asRevoke.map .revoke
  | .otherGen t => if f.asOther t then some (.other t) else none

/-- The error values `conn.go` constructs (each constructor corresponds to
one `fmt.Errorf` site; `wrapNotification` and `wrapReconnect` are the
`%w`-wrapping sites at lines 207 and 214). -/
inductive GoError where
  | baseParseError
  | unknownMessageType (messageType raw : String)
  | msgUnmarshalError (messageType : String)
  | unhandledMessage (typeName : String)
  | unknownSubscriptionType (subType : String)
  | eventUnmarshalError (subType : String) (k : Nat)
  | unknownEventType (subType : String)
  | wrapNotification (e : GoError)
  | wrapReconnect (e : GoError)
  | couldNotDialReconnect
  | reconnectReadError
  | reconnectParseError
  | reconnectNotWelcome (messageType : String)
  | errNilOnWelcome
  | couldNotDial (addr : String)
  | couldNotCloseWs
deriving DecidableEq, Repr

/-- Observable actions of the dispatch code, in program order.  The
`spawn*` constructors record a handler being launched (`go f(v)`);
`rawEventCall` is the synchronous raw-hook call at conn.go line 270;
`errorCall` a call of the error sink `c.onError`; `dialAttempt` a
websocket dial; `spawnHandoff` the launch of the reconnect goroutine
(conn.go line 232); `transportCloseNormal` a `ws.Close` with
`StatusNormalClosure`; `signalReconnected` the send on `c.reconnected`
(conn.go line 251). -/
inductive Effect where
  | spawnWelcome (message : WelcomeMessage)
  | spawnKeepAlive (message : KeepAliveMessage)
  | spawnNotification (message : NotificationMessage)
  | spawnReconnect (message : ReconnectMessage)
  | spawnRevoke (message : RevokeMessage)
  | rawEventCall (event : String) (metadata : MessageMetadata) (subscription : PayloadSubscription)
  | spawnEvent (k : Nat)
  | errorCall (e : GoError)
  | dialAttempt (addr : String)
  | spawnHandoff (ws : Nat)
  | transportCloseNormal (ws : Nat)
  | signalReconnected
deriving DecidableEq, Repr

/-- One entry of the `subMetadata` map (defined outside `conn.go`): the
code only uses its `EventGen` field (conn.go lines 274-275), a nullable
constructor for the typed decode target; typed targets are identified by
`Nat` indices. -/
structure SubMetaEntry where
  EventGen : Option Nat
deriving DecidableEq, Repr

/-- Environment of externals the dispatch code consults: the global
`subMetadata` map (keyed by subscription type), the outcome of
`json.Unmarshal` into the typed event target `k` on given bytes, and the
outcome of `websocket.Dial` at a given address (`none` = dial error,
`some ws` = the freshly dialed transport). -/
structure NotifEnv where
  subMetadata : String → Option SubMetaEntry
  decodeEvent : Nat → String → Bool
  dialWs : String → Option Nat

/-- Client state (conn.go lines 41-106).  Handler fields are `true` when a
callback is registered; `eventHandlers k` is the registration state of the
typed event handler for target `k`.  `ws` is the active transport id. -/
structure Client where
  Address : String
  ws : Option Nat
  connected : Bool
  reconnecting : Bool
  onWelcome : Bool
  onKeepAlive : Bool
  onNotification : Bool
  onReconnect : Bool
  onRevoke : Bool
  onRawEvent : Bool
  eventHandlers : Nat → Bool

/-- `callFunc` (conn.go lines 35-39): spawn the handler iff it is
registered (non-nil). -/
def callFunc (registered : Bool) (eff : Effect) : List Effect :=
  if registered then [eff] else []

/-- `handleNotification` (conn.go lines 257-380).  Returns the Go error
result and the effect list in program order: raw hook first (line 270),
then the typed decode and dispatch.  `Event.MarshalJSON` on a
`json.RawMessage` returns the bytes unchanged and never errors, so `data`
is `message.Payload.Event` itself. -/
def handleNotification (env : NotifEnv) (c : Client) (message : NotificationMessage) :
    Except GoError Unit × List Effect :=
  let data := message.Payload.Event
  let subscription := message.Payload.Subscription
  match env.subMetadata subscription.type with
  | none => (.error (.unknownSubscriptionType subscription.type), [])
  | some metadata =>
    let rawEffs := callFunc c.onRawEvent (.rawEventCall data message.Metadata subscription)
    match metadata.EventGen with
    | none =>
      -- newEvent stays nil, so the type switch falls to default (line 376)
      (.ok (), rawEffs ++ [.errorCall (.unknownEventType subscription.type)])
    | some k =>
      if env.decodeEvent k data then
        (.ok (), rawEffs ++ callFunc (c.eventHandlers k) (.spawnEvent k))
      else
        (.error (.eventUnmarshalError subscription.type k), rawEffs)

/-- `reconnect` (conn.go lines 225-231, 254): rewrite the address, dial,
and on success launch the handoff goroutine (modelled separately as
`reconnectGoroutine`). -/
def reconnect (env : NotifEnv) (c : Client) (message : ReconnectMessage) :
    Except GoError Unit × Client × List Effect :=
  let c1 := { c with Address := message.Payload.Session.ReconnectUrl }
  match env.dialWs c1.Address with
  | none => (.error .couldNotDialReconnect, c1, [.dialAttempt c1.Address])
  | some ws => (.ok (), c1, [.dialAttempt c1.Address, .spawnHandoff ws])

/-- The reconnect handoff goroutine (conn.go lines 232-252).  `ws` is the
newly dialed transport; `readResult` is the outcome of the single
`ws.Read` (`none` = read error, in which case `data` is nil and the
subsequent `parseBaseMessage` necessarily fails too).  On a parse failure
the Go code continues with the zero `MessageMetadata`, whose empty
`MessageType` then fails the welcome check, so a failed read or parse
always takes the abort path. -/
def reconnectGoroutine (c : Client) (ws : Nat) (readResult : Option Frame) :
    Client × List Effect :=
  let readErrs : List Effect :=
    match readResult with
    | none => [.errorCall .reconnectReadError]
    | some _ => []
  let parsed : Option MessageMetadata :=
    match readResult with
    | none => none
    | some f => f.baseMeta
  let parseErrs : List Effect :=
    match parsed with
    | none => [.errorCall .reconnectParseError]
    | some _ => []
  let metadata := parsed.getD { MessageId := "", MessageType := "", MessageTimestamp := "" }
  if metadata.MessageType = "session_welcome" then
    ({ c with reconnecting := true, ws := some ws },
     readErrs ++ parseErrs ++ [.transportCloseNormal (c.ws.getD 0), .signalReconnected])
  else
    (c, readErrs ++ parseErrs ++ [.errorCall (.reconnectNotWelcome metadata.MessageType)])

/-- `handleMessage` (conn.go lines 179-223): parse the envelope, look up
the discriminant, fully decode, and dispatch on the dynamic type. -/
def handleMessage (env : NotifEnv) (c : Client) (f : Frame) :
    Except GoError Unit × Client × List Effect :=
  match f.baseMeta with
  | none => (.error .baseParseError, c, [])
  | some metadata =>
    match messageTypeMap metadata.MessageType with
    | none => (.error (.unknownMessageType metadata.MessageType f.raw), c, [])
    | some genMessage =>
      match unmarshal f genMessage with
      | none => (.error (.msgUnmarshalError metadata.MessageType), c, [])
      | some message =>
        match message with
        | .welcome msg => (.ok (), c, callFunc c.onWelcome (.spawnWelcome msg))
        | .keepAlive msg => (.ok (), c, callFunc c.onKeepAlive (.spawnKeepAlive msg))
        | .notification msg =>
          let spawns := callFunc c.onNotification (.spawnNotification msg)
          match handleNotification env c msg with
          | (.ok _, effs) => (.ok (), c, spawns ++ effs)
          | (.error e, effs) => (.error (.wrapNotification e), c, spawns ++ effs)
        | .reconnect msg =>
          let spawns := callFunc c.onReconnect (.spawnReconnect msg)
          match reconnect env c msg with
          | (.ok _, c1, effs) => (.ok (), c1, spawns ++ effs)
          | (.error e, c1, effs) => (.error (.wrapReconnect e), c1, spawns ++ effs)
        | .revoke msg => (.ok (), c, callFunc c.onRevoke (.spawnRevoke msg))
        | .other t => (.error (.unhandledMessage t), c, [])

/-- One iteration of the read loop's dispatch tail (conn.go lines
156-159): run `handleMessage`; a non-nil error is funnelled to the error
sink `c.onError` and the loop continues to the next frame in every case. -/
def processFrame (env : NotifEnv) (c : Client) (f : Frame) : Client × List Effect :=
  match handleMessage env c f with
  | (.ok _, c1, effs) => (c1, effs)
  | (.error e, c1, effs) => (c1, effs ++ [.errorCall e])

/-- The pre-loop phase of `ConnectWithContext` (conn.go lines 124-135):
the `onWelcome` guard runs before anything else; only then is the
transport dialed and the client marked connected. -/
def connectWithContextPrelude (env : NotifEnv) (c : Client) :
    Except GoError Client × List Effect :=
  if c.onWelcome = false then (.error .errNilOnWelcome, [])
  else
    match env.dialWs c.Address with
    | none => (.error (.couldNotDial c.Address), [.dialAttempt c.Address])
    | some ws => (.ok { c with ws := some ws, connected := true }, [.dialAttempt c.Address])

/-- Result of `c.ws.Close(StatusNormalClosure, ...)` at conn.go line 170:
no error, an error satisfying `errors.As(err, &websocket.CloseError)`, or
any other error. -/
inductive TcRes where
  | ok
  | closeErr
  | otherErr
deriving DecidableEq, Repr

/-- `Close` (conn.go lines 163-177).  The deferred `c.ws = nil` runs on
every path; when not connected the method returns nil without touching the
transport; otherwise it clears `connected` and asks the transport to close
with a normal-closure code, swallowing `websocket.CloseError` results. -/
def Close (c : Client) (r : TcRes) : Except GoError Unit × Client × List Effect :=
  if c.connected = false then (.ok (), { c with ws := none }, [])
  else
    let c1 := { c with connected := false, ws := none }
    let effs := [Effect.transportCloseNormal (c.ws.getD 0)]
    match r with
    | .otherErr => (.error .couldNotCloseWs, c1, effs)
    | _ => (.ok (), c1, effs)

/-- State of the read-loop/handoff system: the active transport
(`c.ws`), the set of transports already closed, the `reconnecting` flag
(conn.go line 47), and whether a send on the single-use `reconnected`
channel is pending (conn.go lines 48, 147, 251). -/
structure SysState where
  activeWs : Nat
  closedWs : List Nat
  reconnecting : Bool
  signalPending : Bool
deriving DecidableEq, Repr

/-- Transitions of the read-loop/handoff system.  `deliverFrame tid fr`:
the loop reads frame `fr` from transport `tid` and dispatches it (conn.go
lines 138, 156).  `handoff newWs`: the reconnect goroutine has read a
`session_welcome` first frame on `newWs` and executes lines 248-251.
`observeClosure`: the loop's read fails with a normal closure while
`reconnecting` is set, so it clears the flag, consumes the channel signal
and continues on the swapped transport (lines 144-149). -/
inductive SysStep where
  | deliverFrame (tid : Nat) (frame : String)
  | handoff (newWs : Nat)
  | observeClosure
deriving DecidableEq, Repr

/-- One step of the system; `none` when the step is not enabled.  The loop
can only deliver frames read from the currently active, not-yet-closed
transport; the handoff closes the old active transport, swaps in the new
one, sets `reconnecting` and posts the channel signal, exactly as the
success branch of the goroutine does. -/
def sysStep (s : SysState) : SysStep → Option SysState
  | .deliverFrame tid _ =>
    if tid = s.activeWs ∧ tid ∉ s.closedWs then some s else none
  | .handoff newWs =>
    some { activeWs := newWs, closedWs := s.activeWs :: s.closedWs,
           reconnecting := true, signalPending := true }
  | .observeClosure =>
    if s.reconnecting ∧ s.signalPending then
      some { s with reconnecting := false, signalPending := false }
    else none

/-- Run a list of steps from a state; fails if any step is not enabled. -/
def runSteps (s : SysState) : List SysStep → Option SysState
  | [] => some s
  | st :: rest =>
    match sysStep s st with
    | none => none
    | some s1 => runSteps s1 rest

/-- The message-kind handler an effect spawns, if any: the five `spawn*`
effects correspond to the five per-message-kind callbacks of the Handler
Registry; all other effects (event dispatch, error sink, transport
actions) spawn no message-kind handler. -/
def msgSpawnKind : Effect → Option String
  | .spawnWelcome _ => some "session_welcome"
  | .spawnKeepAlive _ => some "session_keepalive"
  | .spawnNotification _ => some "notification"
  | .spawnReconnect _ => some "session_reconnect"
  | .spawnRevoke _ => some "revocation"
  | _ => none

/-- Whether the message-kind handler for discriminant `t` is registered on
the client. -/
def handlerFor (c : Client) (t : String) : Bool :=
  if t = "session_welcome" then c.onWelcome
  else if t = "session_keepalive" then c.onKeepAlive
  else if t = "notification" then c.onNotification
  else if t = "session_reconnect" then c.onReconnect
  else if t = "revocation" then c.onRevoke
  else false

/-- The discriminant a decoded dynamic message corresponds to. -/
def dynKind : DynMessage → Option String
  | .welcome _ => some "session_welcome"
  | .keepAlive _ => some "session_keepalive"
  | .notification _ => some "notification"
  | .reconnect _ => some "session_reconnect"
  | .revoke _ => some "revocation"
  | .other _ => none

/-- Whether a `handleMessage` outcome is the `default`-branch
"unhandled %T message" error (conn.go line 219). -/
def isUnhandledResult : Except GoError Unit → Bool
  | .error (.unhandledMessage _) => true
  | _ => false

/-- Whether a connect outcome is the `ErrNilOnWelcome` configuration
error. -/
def isErrNilOnWelcome : Except GoError Client → Bool
  | .error .errNilOnWelcome => true
  | _ => false

end Twitch

namespace Twitch

/-! Concrete fixtures used by the witness theorems. -/

def metaWelcome : MessageMetadata :=
  { MessageId := "m1", MessageType := "session_welcome", MessageTimestamp := "t1" }

def metaNotif : MessageMetadata :=
  { MessageId := "m2", MessageType := "notification", MessageTimestamp := "t2" }

def metaBogus : MessageMetadata :=
  { MessageId := "m3", MessageType := "session_bogus", MessageTimestamp := "t3" }

def welcomeW : WelcomeMessage :=
  { Metadata := metaWelcome,
    Payload := { Session := { Id := "s1", KeepaliveTimeoutSeconds := 10 } } }

def subW : PayloadSubscription :=
  { type := "channel.update", version := "1", condition := "c1" }

def subUnknownW : PayloadSubscription :=
  { type := "channel.mystery", version := "1", condition := "c2" }

def notifW : NotificationMessage :=
  { Metadata := metaNotif, Payload := { Subscription := subW, Event := "evbytes" } }

def notifUnknownW : NotificationMessage :=
  { Metadata := metaNotif, Payload := { Subscription := subUnknownW, Event := "evbytes2" } }

def clientW : Client :=
  { Address := "wss://a", ws := some 1, connected := true, reconnecting := false,
    onWelcome := true, onKeepAlive := true, onNotification := true,
    onReconnect := true, onRevoke := true, onRawEvent := true,
    eventHandlers := fun _ => true }

def envW : NotifEnv :=
  { subMetadata := fun t => if t = "channel.update" then some { EventGen := some 0 } else none,
    decodeEvent := fun _ _ => true,
    dialWs := fun _ => some 2 }

/-- An environment whose typed event decode always fails, for the
decode-failure witnesses. -/
def envFailW : NotifEnv :=
  { subMetadata := fun t => if t = "channel.update" then some { EventGen := some 0 } else none,
    decodeEvent := fun _ _ => false,
    dialWs := fun _ => some 2 }

def frameWelcomeW : Frame :=
  { raw := "rawW", baseMeta := some metaWelcome, asWelcome := some welcomeW,
    asKeepAlive := none, asNotification := none, asReconnect := none,
    asRevoke := none, asOther := fun _ => false }

def frameNotifW : Frame :=
  { raw := "rawN", baseMeta := some metaNotif, asWelcome := none,
    asKeepAlive := none, asNotification := some notifW, asReconnect := none,
    asRevoke := none, asOther := fun _ => false }

def frameNotifUnknownW : Frame :=
  { raw := "rawU", baseMeta := some metaNotif, asWelcome := none,
    asKeepAlive := none, asNotification := some notifUnknownW, asReconnect := none,
    asRevoke := none, asOther := fun _ => false }

def frameBogusW : Frame :=
  { raw := "rawB", baseMeta := some metaBogus, asWelcome := none,
    asKeepAlive := none, asNotification := none, asReconnect := none,
    asRevoke := none, asOther := fun _ => false }

/-- A frame whose envelope parses to keepalive metadata, used by the
reconnect-abort witness: its message type is not `session_welcome`. -/
def frameKeepAliveW : Frame :=
  { raw := "rawK",
    baseMeta := some { MessageId := "m4", MessageType := "session_keepalive",
                       MessageTimestamp := "t4" },
    asWelcome := none,
    asKeepAlive := some { Metadata := { MessageId := "m4", MessageType := "session_keepalive",
                                        MessageTimestamp := "t4" } },
    asNotification := none, asReconnect := none,
    asRevoke := none, asOther := fun _ => false }

/-- A client with no Welcome handler registered. -/
def clientNoWelcomeW : Client := { clientW with onWelcome := false }

/-- A disconnected client with no transport handle. -/
def clientClosedW : Client := { clientW with connected := false, ws := none }

/-! Helper lemmas. -/

/-- Every value stored in `messageTypeMap` is a generator for one of the
five handled message variants. -/
theorem messageTypeMap_not_otherGen (t : String) (g : PtrGen)
    (h : messageTypeMap t = some g) : ∀ s, g ≠ PtrGen.otherGen s := by
  unfold messageTypeMap at h
  split_ifs at h <;>
    first
      | exact Option.noConfusion h
      | (injection h with h2; subst h2; intro s hs; exact PtrGen.noConfusion hs)

/-- The notification router never spawns a message-kind handler: its
effects are the raw hook, typed event spawns and error-sink calls only. -/
theorem handleNotification_msgSpawn_none (env : NotifEnv) (c : Client)
    (m : NotificationMessage) :
    ∀ e ∈ (handleNotification env c m).2, msgSpawnKind e = none := by
  intro e he
  simp only [handleNotification] at he
  split at he
  · simp at he
  · split at he
    · rcases List.mem_append.mp he with h | h
      · simp only [callFunc] at h
        split at h
        · simp only [List.mem_singleton] at h; subst h; rfl
        · simp at h
      · simp only [List.mem_singleton] at h; subst h; rfl
    · split at he
      · rcases List.mem_append.mp he with h | h
        · simp only [callFunc] at h
          split at h
          · simp only [List.mem_singleton] at h; subst h; rfl
          · simp at h
        · simp only [callFunc] at h
          split at h
          · simp only [List.mem_singleton] at h; subst h; rfl
          · simp at h
      · simp only [callFunc] at he
        split at he
        · simp only [List.mem_singleton] at he; subst he; rfl
        · simp at he

/-- The reconnect initiator's effects (dial, goroutine launch) spawn no
message-kind handler. -/
theorem reconnect_msgSpawn_none (env : NotifEnv) (c : Client)
    (m : ReconnectMessage) :
    ∀ e ∈ (reconnect env c m).2.2, msgSpawnKind e = none := by
  intro e he
  simp only [reconnect] at he
  split at he
  · simp only [List.mem_singleton] at he; subst he; rfl
  · rcases List.mem_cons.mp he with rfl | h
    · rfl
    · simp only [List.mem_singleton] at h; subst h; rfl

/-! Claim theorems. -/

/-- Claim C5: for a frame whose envelope parses but whose discriminant is
not a key of `messageTypeMap`, no handler is invoked, the error sink
receives exactly one report identifying the unrecognized type, and the
loop iteration completes normally (the read loop proceeds to the next
frame). -/
theorem c5_unknown_discriminant (env : NotifEnv) (c : Client) (f : Frame)
    (metadata : MessageMetadata)
    (hmeta : f.baseMeta = some metadata)
    (hunk : messageTypeMap metadata.MessageType = none) :
    processFrame env c f =
      (c, [Effect.errorCall (.unknownMessageType metadata.MessageType f.raw)]) := by
  simp [processFrame, handleMessage, hmeta, hunk]

theorem c5_unknown_discriminant_witness :
    processFrame envW clientW frameBogusW =
      (clientW, [Effect.errorCall (.unknownMessageType metaBogus.MessageType frameBogusW.raw)]) :=
  c5_unknown_discriminant envW clientW frameBogusW metaBogus rfl (by decide)

/-- Claim C9 (implicit): the `default` branch of `handleMessage`'s variant
switch is unreachable — every constructor stored in `messageTypeMap`
yields one of the five handled variants, so `handleMessage` never returns
the "unhandled message" error, for any frame, client and environment. -/
theorem c9_default_unreachable (env : NotifEnv) (c : Client) (f : Frame) :
    isUnhandledResult (handleMessage env c f).1 = false := by
  cases hb : f.baseMeta with
  | none => simp [handleMessage, hb, isUnhandledResult]
  | some metadata =>
    cases hg : messageTypeMap metadata.MessageType with
    | none => simp [handleMessage, hb, hg, isUnhandledResult]
    | some gen =>
      cases hu : unmarshal f gen with
      | none => simp [handleMessage, hb, hg, hu, isUnhandledResult]
      | some message =>
        cases message with
        | welcome msg => simp [handleMessage, hb, hg, hu, isUnhandledResult]
        | keepAlive msg => simp [handleMessage, hb, hg, hu, isUnhandledResult]
        | notification msg =>
          cases hn : handleNotification env c msg with
          | mk r effs =>
            cases r <;> simp [handleMessage, hb, hg, hu, hn, isUnhandledResult]
        | reconnect msg =>
          cases hr : reconnect env c msg with
          | mk r rest =>
            cases rest with
            | mk c1 effs =>
              cases r <;> simp [handleMessage, hb, hg, hu, hr, isUnhandledResult]
        | revoke msg => simp [handleMessage, hb, hg, hu, isUnhandledResult]
        | other t =>
          exfalso
          have hno := messageTypeMap_not_otherGen _ _ hg
          cases gen with
          | otherGen s => exact hno s rfl
          | welcomeGen =>
            rcases Option.map_eq_some'.mp hu with ⟨a, _, hc⟩; cases hc
          | keepAliveGen =>
            rcases Option.map_eq_some'.mp hu with ⟨a, _, hc⟩; cases hc
          | notificationGen =>
            rcases Option.map_eq_some'.mp hu with ⟨a, _, hc⟩; cases hc
          | reconnectGen =>
            rcases Option.map_eq_some'.mp hu with ⟨a, _, hc⟩; cases hc
          | revokeGen =>
            rcases Option.map_eq_some'.mp hu with ⟨a, _, hc⟩; cases hc

/-- Claim C7: with no Welcome handler registered, `ConnectWithContext`
fails with `ErrNilOnWelcome` before any dial attempt and with the client
untouched; with a Welcome handler registered it never fails with that
error. -/
theorem c7_welcome_guard (env : NotifEnv) (c : Client) :
    (c.onWelcome = false →
      connectWithContextPrelude env c = (.error .errNilOnWelcome, []))
    ∧ (c.onWelcome = true →
      isErrNilOnWelcome (connectWithContextPrelude env c).1 = false) := by
  constructor
  · intro h
    simp [connectWithContextPrelude, h]
  · intro h
    simp only [connectWithContextPrelude, h]
    cases hd : env.dialWs c.Address <;> simp [isErrNilOnWelcome, hd]

theorem c7_welcome_guard_witness :
    connectWithContextPrelude envW clientNoWelcomeW = (.error .errNilOnWelcome, []) :=
  (c7_welcome_guard envW clientNoWelcomeW).1 rfl

/-- Claim C8: `Close` is idempotent.  On a client that is not connected
(which in this program always has no transport handle) it returns nil and
changes nothing; a second call right after a first is a no-op returning
nil, so two calls are observably equivalent to one; on a connected client
it clears the connected flag and asks the transport to close with a
normal-closure code. -/
theorem c8_close_idempotent (c : Client) (r r1 : TcRes) :
    (c.connected = false → c.ws = none → Close c r = (.ok (), c, []))
    ∧ Close (Close c r).2.1 r1 = (.ok (), (Close c r).2.1, [])
    ∧ (c.connected = true →
        (Close c r).2.1.connected = false
        ∧ (Close c r).2.2 = [Effect.transportCloseNormal (c.ws.getD 0)]) := by
  obtain ⟨Address, ws, connected, reconnecting, ow, oka, ono, ore, orv, raw, eh⟩ := c
  cases connected <;> cases r <;> cases r1 <;> simp [Close] <;>
    exact fun h => h.symm

theorem c8_close_idempotent_witness :
    Close clientClosedW TcRes.ok = (.ok (), clientClosedW, []) :=
  (c8_close_idempotent clientClosedW TcRes.ok TcRes.ok).1 rfl rfl

/-- Claim C4: for every notification whose subscription type has a
mapping entry, the registered raw-event hook is invoked with the
undecoded event bytes, the outer metadata and the subscription
descriptor — the first effect of the router — whether or not a typed
decode target (`EventGen`) exists; and when a typed target exists, the
bytes the typed decode consumes are exactly `message.Payload.Event`, the
same bytes handed to the raw hook. -/
theorem c4_raw_hook_always (env : NotifEnv) (c : Client)
    (message : NotificationMessage) (md : SubMetaEntry)
    (hreg : c.onRawEvent = true)
    (hmd : env.subMetadata message.Payload.Subscription.type = some md) :
    (∃ rest, (handleNotification env c message).2
        = Effect.rawEventCall message.Payload.Event message.Metadata
            message.Payload.Subscription :: rest)
    ∧ (∀ k, md.EventGen = some k →
        handleNotification env c message =
          (if env.decodeEvent k message.Payload.Event then
            (Except.ok (),
             Effect.rawEventCall message.Payload.Event message.Metadata
                 message.Payload.Subscription
               :: callFunc (c.eventHandlers k) (Effect.spawnEvent k))
          else
            (Except.error (.eventUnmarshalError message.Payload.Subscription.type k),
             [Effect.rawEventCall message.Payload.Event message.Metadata
                message.Payload.Subscription]))) := by
  constructor
  · cases hg : md.EventGen with
    | none =>
      exact ⟨[Effect.errorCall (.unknownEventType message.Payload.Subscription.type)],
        by simp [handleNotification, hmd, hg, callFunc, hreg]⟩
    | some k =>
      by_cases hd : env.decodeEvent k message.Payload.Event
      · exact ⟨callFunc (c.eventHandlers k) (Effect.spawnEvent k),
          by simp [handleNotification, hmd, hg, hd, callFunc, hreg]⟩
      · exact ⟨[], by simp [handleNotification, hmd, hg, hd, callFunc, hreg]⟩
  · intro k hk
    by_cases hd : env.decodeEvent k message.Payload.Event <;>
      simp [handleNotification, hmd, hk, hd, callFunc, hreg]

theorem c4_raw_hook_always_witness :
    (∃ rest, (handleNotification envW clientW notifW).2
        = Effect.rawEventCall notifW.Payload.Event notifW.Metadata
            notifW.Payload.Subscription :: rest)
    ∧ (∀ k, SubMetaEntry.EventGen { EventGen := some 0 } = some k →
        handleNotification envW clientW notifW =
          (if envW.decodeEvent k notifW.Payload.Event then
            (Except.ok (),
             Effect.rawEventCall notifW.Payload.Event notifW.Metadata
                 notifW.Payload.Subscription
               :: callFunc (clientW.eventHandlers k) (Effect.spawnEvent k))
          else
            (Except.error (.eventUnmarshalError notifW.Payload.Subscription.type k),
             [Effect.rawEventCall notifW.Payload.Event notifW.Metadata
                notifW.Payload.Subscription]))) :=
  c4_raw_hook_always envW clientW notifW { EventGen := some 0 } rfl (by decide)

/-- Claim C10 (implicit): when a mapping entry with a typed decode target
exists and the typed decode fails, the raw-event hook has already fired
with the original event bytes: the router's effect list is exactly the
raw-hook call (emitted before the decode attempt), and the decode error
is returned. -/
theorem c10_raw_precedes_decode (env : NotifEnv) (c : Client)
    (message : NotificationMessage) (md : SubMetaEntry) (k : Nat)
    (hreg : c.onRawEvent = true)
    (hmd : env.subMetadata message.Payload.Subscription.type = some md)
    (hk : md.EventGen = some k)
    (hfail : env.decodeEvent k message.Payload.Event = false) :
    handleNotification env c message =
      (Except.error (.eventUnmarshalError message.Payload.Subscription.type k),
       [Effect.rawEventCall message.Payload.Event message.Metadata
          message.Payload.Subscription]) := by
  simp [handleNotification, hmd, hk, hfail, callFunc, hreg]

theorem c10_raw_precedes_decode_witness :
    handleNotification envFailW clientW notifW =
      (Except.error (.eventUnmarshalError notifW.Payload.Subscription.type 0),
       [Effect.rawEventCall notifW.Payload.Event notifW.Metadata
          notifW.Payload.Subscription]) :=
  c10_raw_precedes_decode envFailW clientW notifW { EventGen := some 0 } 0
    rfl (by decide) rfl rfl

/-- Claim C6: for a notification whose subscription type has no entry in
the subscription-metadata mapping, the router returns the
unknown-subscription-type error without firing the raw hook or any event
handler; the loop body funnels exactly one wrapped report to the error
sink.  (Only the top-level notification message callback fires, which is
a message-kind handler, not a handler for the event.) -/
theorem c6_unknown_subscription (env : NotifEnv) (c : Client) (f : Frame)
    (metadata : MessageMetadata) (msg : NotificationMessage)
    (hmeta : f.baseMeta = some metadata)
    (htype : metadata.MessageType = "notification")
    (hdec : f.asNotification = some msg)
    (hunk : env.subMetadata msg.Payload.Subscription.type = none) :
    processFrame env c f =
      (c, callFunc c.onNotification (Effect.spawnNotification msg)
          ++ [Effect.errorCall (.wrapNotification
                (.unknownSubscriptionType msg.Payload.Subscription.type))]) := by
  have hgen : messageTypeMap metadata.MessageType = some .notificationGen := by
    rw [htype]; decide
  have hn : handleNotification env c msg =
      (.error (.unknownSubscriptionType msg.Payload.Subscription.type), []) := by
    simp [handleNotification, hunk]
  simp [processFrame, handleMessage, hmeta, hgen, unmarshal, hdec, hn]

theorem c6_unknown_subscription_witness :
    processFrame envW clientW frameNotifUnknownW =
      (clientW, callFunc clientW.onNotification (Effect.spawnNotification notifUnknownW)
          ++ [Effect.errorCall (.wrapNotification
                (.unknownSubscriptionType notifUnknownW.Payload.Subscription.type))]) :=
  c6_unknown_subscription envW clientW frameNotifUnknownW metaNotif notifUnknownW
    rfl rfl rfl (by decide)

/-- Claim C2: whenever the first frame read on the newly dialed transport
does not carry `session_welcome` (including a failed read or an
unparseable frame), the handoff goroutine aborts: the client state is
entirely unchanged (no transport swap, the prior transport stays
authoritative), at least one error is reported via the error sink, and
the goroutine performs nothing but error reports — in particular no
transport close and no handoff signal. -/
theorem c2_reconnect_abort (c : Client) (ws : Nat) (readResult : Option Frame)
    (habort : ∀ f m, readResult = some f → f.baseMeta = some m →
        m.MessageType ≠ "session_welcome") :
    (reconnectGoroutine c ws readResult).1 = c
    ∧ (∃ e, Effect.errorCall e ∈ (reconnectGoroutine c ws readResult).2)
    ∧ (∀ eff ∈ (reconnectGoroutine c ws readResult).2,
        ∃ e, eff = Effect.errorCall e) := by
  rcases readResult with _ | f
  · refine ⟨by simp [reconnectGoroutine],
      ⟨GoError.reconnectReadError, by simp [reconnectGoroutine]⟩, ?_⟩
    intro eff heff
    simp [reconnectGoroutine] at heff
    rcases heff with rfl | rfl | rfl
    · exact ⟨_, rfl⟩
    · exact ⟨_, rfl⟩
    · exact ⟨_, rfl⟩
  · cases hb : f.baseMeta with
    | none =>
      refine ⟨by simp [reconnectGoroutine, hb],
        ⟨GoError.reconnectParseError, by simp [reconnectGoroutine, hb]⟩, ?_⟩
      intro eff heff
      simp [reconnectGoroutine, hb] at heff
      rcases heff with rfl | rfl
      · exact ⟨_, rfl⟩
      · exact ⟨_, rfl⟩
    | some m =>
      have hne : m.MessageType ≠ "session_welcome" := habort f m rfl hb
      refine ⟨by simp [reconnectGoroutine, hb, hne],
        ⟨GoError.reconnectNotWelcome m.MessageType,
          by simp [reconnectGoroutine, hb, hne]⟩, ?_⟩
      intro eff heff
      simp [reconnectGoroutine, hb, hne] at heff
      subst heff
      exact ⟨_, rfl⟩

theorem c2_reconnect_abort_witness :
    (reconnectGoroutine clientW 5 (some frameKeepAliveW)).1 = clientW
    ∧ (∃ e, Effect.errorCall e ∈ (reconnectGoroutine clientW 5 (some frameKeepAliveW)).2)
    ∧ (∀ eff ∈ (reconnectGoroutine clientW 5 (some frameKeepAliveW)).2,
        ∃ e, eff = Effect.errorCall e) :=
  c2_reconnect_abort clientW 5 (some frameKeepAliveW) (by
    intro f m hf hm
    injection hf with hf2
    subst hf2
    have hm2 : some ({ MessageId := "m4", MessageType := "session_keepalive",
                       MessageTimestamp := "t4" } : MessageMetadata) = some m := hm
    injection hm2 with h
    subst h
    decide)

/-- Claim C1: for every frame whose envelope parses, whose discriminant
is a key of `messageTypeMap` and whose body decodes into the
corresponding variant, one loop iteration spawns exactly the message-kind
handler registered for that kind (once, and none when unregistered), and
spawns no handler of any other message kind; for the Notification variant
the Notification Router's effects additionally follow the top-level
spawn, with at most a trailing error-sink report. -/
theorem c1_dispatch_exact (env : NotifEnv) (c : Client) (f : Frame)
    (metadata : MessageMetadata) (gen : PtrGen) (message : DynMessage) (k : String)
    (hmeta : f.baseMeta = some metadata)
    (hgen : messageTypeMap metadata.MessageType = some gen)
    (hdec : unmarshal f gen = some message)
    (hk : dynKind message = some k) :
    ((processFrame env c f).2.filterMap msgSpawnKind
        = if handlerFor c k then [k] else [])
    ∧ (∀ nm, message = DynMessage.notification nm →
        ∃ tl, (processFrame env c f).2
            = callFunc c.onNotification (Effect.spawnNotification nm)
              ++ (handleNotification env c nm).2 ++ tl
          ∧ ∀ e ∈ tl, ∃ er, e = Effect.errorCall er) := by
  cases message with
  | welcome msg =>
    obtain rfl : k = "session_welcome" := by simpa [dynKind] using hk.symm
    refine ⟨?_, fun nm hm => absurd hm (by simp)⟩
    have hpf : processFrame env c f = (c, callFunc c.onWelcome (.spawnWelcome msg)) := by
      simp [processFrame, handleMessage, hmeta, hgen, hdec]
    rw [hpf]
    cases hw : c.onWelcome <;> simp [callFunc, handlerFor, msgSpawnKind, hw]
  | keepAlive msg =>
    obtain rfl : k = "session_keepalive" := by simpa [dynKind] using hk.symm
    refine ⟨?_, fun nm hm => absurd hm (by simp)⟩
    have hpf : processFrame env c f = (c, callFunc c.onKeepAlive (.spawnKeepAlive msg)) := by
      simp [processFrame, handleMessage, hmeta, hgen, hdec]
    rw [hpf]
    cases hw : c.onKeepAlive <;> simp [callFunc, handlerFor, msgSpawnKind, hw]
  | revoke msg =>
    obtain rfl : k = "revocation" := by simpa [dynKind] using hk.symm
    refine ⟨?_, fun nm hm => absurd hm (by simp)⟩
    have hpf : processFrame env c f = (c, callFunc c.onRevoke (.spawnRevoke msg)) := by
      simp [processFrame, handleMessage, hmeta, hgen, hdec]
    rw [hpf]
    cases hw : c.onRevoke <;> simp [callFunc, handlerFor, msgSpawnKind, hw]
  | notification msg =>
    obtain rfl : k = "notification" := by simpa [dynKind] using hk.symm
    cases hn : handleNotification env c msg with
    | mk r effs =>
      have hnos : ∀ e ∈ effs, msgSpawnKind e = none := by
        intro e he
        have h0 := handleNotification_msgSpawn_none env c msg e
        rw [hn] at h0
        exact h0 he
      cases r with
      | ok a =>
        have hpf : processFrame env c f =
            (c, callFunc c.onNotification (.spawnNotification msg) ++ effs) := by
          simp [processFrame, handleMessage, hmeta, hgen, hdec, hn]
        constructor
        · rw [hpf]
          simp only [List.filterMap_append, List.filterMap_eq_nil_iff.mpr hnos,
            List.append_nil]
          cases ho : c.onNotification <;>
            simp [callFunc, handlerFor, msgSpawnKind, ho]
        · intro nm hm
          injection hm with h
          subst h
          refine ⟨[], ?_, by simp⟩
          rw [hpf, hn]
          simp
      | error e =>
        have hpf : processFrame env c f =
            (c, (callFunc c.onNotification (.spawnNotification msg) ++ effs)
                ++ [Effect.errorCall (.wrapNotification e)]) := by
          simp [processFrame, handleMessage, hmeta, hgen, hdec, hn]
        constructor
        · rw [hpf]
          simp only [List.filterMap_append, List.filterMap_eq_nil_iff.mpr hnos,
            List.append_nil]
          cases ho : c.onNotification <;>
            simp [callFunc, handlerFor, msgSpawnKind, ho]
        · intro nm hm
          injection hm with h
          subst h
          refine ⟨[Effect.errorCall (.wrapNotification e)], ?_, by simp⟩
          rw [hpf, hn]
  | reconnect msg =>
    obtain rfl : k = "session_reconnect" := by simpa [dynKind] using hk.symm
    cases hr : reconnect env c msg with
    | mk r rest =>
      cases rest with
      | mk c1 reffs =>
        have hnos : ∀ e ∈ reffs, msgSpawnKind e = none := by
          intro e he
          have h0 := reconnect_msgSpawn_none env c msg e
          rw [hr] at h0
          exact h0 he
        cases r with
        | ok a =>
          have hpf : processFrame env c f =
              (c1, callFunc c.onReconnect (.spawnReconnect msg) ++ reffs) := by
            simp [processFrame, handleMessage, hmeta, hgen, hdec, hr]
          refine ⟨?_, fun nm hm => absurd hm (by simp)⟩
          rw [hpf]
          simp only [List.filterMap_append, List.filterMap_eq_nil_iff.mpr hnos,
            List.append_nil]
          cases ho : c.onReconnect <;>
            simp [callFunc, handlerFor, msgSpawnKind, ho]
        | error e =>
          have hpf : processFrame env c f =
              (c1, (callFunc c.onReconnect (.spawnReconnect msg) ++ reffs)
                  ++ [Effect.errorCall (.wrapReconnect e)]) := by
            simp [processFrame, handleMessage, hmeta, hgen, hdec, hr]
          refine ⟨?_, fun nm hm => absurd hm (by simp)⟩
          rw [hpf]
          simp only [List.filterMap_append, List.filterMap_eq_nil_iff.mpr hnos,
            List.append_nil]
          cases ho : c.onReconnect <;>
            simp [callFunc, handlerFor, msgSpawnKind, ho]
  | other t =>
    exact absurd hk (by simp [dynKind])

theorem c1_dispatch_exact_witness :
    ((processFrame envW clientW frameWelcomeW).2.filterMap msgSpawnKind
        = if handlerFor clientW "session_welcome" then ["session_welcome"] else [])
    ∧ (∀ nm, DynMessage.welcome welcomeW = DynMessage.notification nm →
        ∃ tl, (processFrame envW clientW frameWelcomeW).2
            = callFunc clientW.onNotification (Effect.spawnNotification nm)
              ++ (handleNotification envW clientW nm).2 ++ tl
          ∧ ∀ e ∈ tl, ∃ er, e = Effect.errorCall er) :=
  c1_dispatch_exact envW clientW frameWelcomeW metaWelcome PtrGen.welcomeGen
    (DynMessage.welcome welcomeW) "session_welcome" rfl (by decide) rfl rfl

/-- Any step other than a handoff leaves the active transport unchanged. -/
theorem sysStep_activeWs_stable (s : SysState) (st : SysStep) (s1 : SysState)
    (h : sysStep s st = some s1) (hst : ∀ n, st ≠ SysStep.handoff n) :
    s1.activeWs = s.activeWs := by
  cases st with
  | deliverFrame tid fr =>
    simp only [sysStep] at h
    split at h
    · injection h with h2; subst h2; rfl
    · exact Option.noConfusion h
  | handoff n => exact absurd rfl (hst n)
  | observeClosure =>
    simp only [sysStep] at h
    split at h
    · injection h with h2; subst h2; rfl
    · exact Option.noConfusion h

/-- No step reopens a closed transport. -/
theorem sysStep_closed_mono (s : SysState) (st : SysStep) (s1 : SysState)
    (h : sysStep s st = some s1) (t : Nat) (ht : t ∈ s.closedWs) :
    t ∈ s1.closedWs := by
  cases st with
  | deliverFrame tid fr =>
    simp only [sysStep] at h
    split at h
    · injection h with h2; subst h2; exact ht
    · exact Option.noConfusion h
  | handoff n =>
    simp only [sysStep] at h
    injection h with h2
    subst h2
    exact List.mem_cons_of_mem _ ht
  | observeClosure =>
    simp only [sysStep] at h
    split at h
    · injection h with h2; subst h2; exact ht
    · exact Option.noConfusion h

/-- A transport closed before a run stays closed at its end. -/
theorem runSteps_closed_mono (steps : List SysStep) :
    ∀ s s2, runSteps s steps = some s2 → ∀ t, t ∈ s.closedWs → t ∈ s2.closedWs := by
  induction steps with
  | nil =>
    intro s s2 h t ht
    injection h with h2
    subst h2
    exact ht
  | cons st rest ih =>
    intro s s2 h t ht
    simp only [runSteps] at h
    cases hs : sysStep s st with
    | none => simp only [hs] at h; exact Option.noConfusion h
    | some s1 =>
      simp only [hs] at h
      exact ih s1 s2 h t (sysStep_closed_mono s st s1 hs t ht)

/-- In a run starting from a state where `t` is already closed, no frame
is ever delivered from transport `t`. -/
theorem runSteps_avoid_closed (steps : List SysStep) :
    ∀ s s2 t, t ∈ s.closedWs → runSteps s steps = some s2 →
      ∀ tid fr, SysStep.deliverFrame tid fr ∈ steps → tid ≠ t := by
  induction steps with
  | nil =>
    intro s s2 t ht h tid fr hmem
    exact absurd hmem (List.not_mem_nil _)
  | cons st rest ih =>
    intro s s2 t ht h tid fr hmem
    simp only [runSteps] at h
    cases hs : sysStep s st with
    | none => simp only [hs] at h; exact Option.noConfusion h
    | some s1 =>
      simp only [hs] at h
      rcases List.mem_cons.mp hmem with heq | hmem2
      · subst heq
        simp only [sysStep] at hs
        split at hs
        · rename_i hcond
          intro heqt
          subst heqt
          exact hcond.2 ht
        · exact Option.noConfusion hs
      · exact ih s1 s2 t (sysStep_closed_mono s st s1 hs t ht) h tid fr hmem2

/-- In a run containing no handoff, the active transport never changes
and every delivered frame is read from it. -/
theorem runSteps_no_handoff_active (steps : List SysStep) :
    ∀ s s2, (∀ n, SysStep.handoff n ∉ steps) → runSteps s steps = some s2 →
      s2.activeWs = s.activeWs
      ∧ ∀ tid fr, SysStep.deliverFrame tid fr ∈ steps → tid = s.activeWs := by
  induction steps with
  | nil =>
    intro s s2 _ h
    injection h with h2
    subst h2
    exact ⟨rfl, fun tid fr hmem => absurd hmem (List.not_mem_nil _)⟩
  | cons st rest ih =>
    intro s s2 hnh h
    simp only [runSteps] at h
    cases hs : sysStep s st with
    | none => simp only [hs] at h; exact Option.noConfusion h
    | some s1 =>
      simp only [hs] at h
      have hst : ∀ n, st ≠ SysStep.handoff n := fun n he =>
        hnh n (he ▸ List.mem_cons_self st rest)
      have hact : s1.activeWs = s.activeWs := sysStep_activeWs_stable s st s1 hs hst
      have hrest := ih s1 s2 (fun n hm => hnh n (List.mem_cons_of_mem st hm)) h
      refine ⟨hrest.1.trans hact, ?_⟩
      intro tid fr hmem
      rcases List.mem_cons.mp hmem with heq | hmem2
      · subst heq
        simp only [sysStep] at hs
        split at hs
        · rename_i hcond
          exact hcond.1
        · exact Option.noConfusion hs
      · exact (hrest.2 tid fr hmem2).trans hact

/-- Claim C3: after a successful handoff (reconnect frame, then a
`session_welcome` first frame on the new transport), the new transport is
active, the old one is closed and stays closed through any continuation
of the run, no frame is ever delivered from the old transport again (and
with no further handoff every delivered frame comes from the new
transport), and a handoff is the only kind of transition that changes
which transport is active. -/
theorem c3_handoff_swap (s s1 : SysState) (newWs : Nat)
    (h : sysStep s (SysStep.handoff newWs) = some s1) :
    s1.activeWs = newWs
    ∧ s.activeWs ∈ s1.closedWs
    ∧ (∀ steps s2, runSteps s1 steps = some s2 →
        s.activeWs ∈ s2.closedWs
        ∧ (∀ tid fr, SysStep.deliverFrame tid fr ∈ steps → tid ≠ s.activeWs)
        ∧ ((∀ n, SysStep.handoff n ∉ steps) →
            s2.activeWs = newWs
            ∧ ∀ tid fr, SysStep.deliverFrame tid fr ∈ steps → tid = newWs))
    ∧ (∀ u st u1, sysStep u st = some u1 → (∀ n, st ≠ SysStep.handoff n) →
        u1.activeWs = u.activeWs) := by
  injection h with h2
  subst h2
  refine ⟨rfl, List.mem_cons_self _ _, ?_,
    fun u st u1 hu hst => sysStep_activeWs_stable u st u1 hu hst⟩
  intro steps s2 hrun
  have hm : s.activeWs ∈ (SysState.mk newWs (s.activeWs :: s.closedWs) true true).closedWs :=
    List.mem_cons_self _ _
  refine ⟨runSteps_closed_mono steps _ s2 hrun s.activeWs hm,
    runSteps_avoid_closed steps _ s2 s.activeWs hm hrun, ?_⟩
  intro hnh
  exact runSteps_no_handoff_active steps _ s2 hnh hrun

def sysS0W : SysState :=
  { activeWs := 1, closedWs := [], reconnecting := false, signalPending := false }

def sysS1W : SysState :=
  { activeWs := 2, closedWs := [1], reconnecting := true, signalPending := true }

theorem c3_handoff_swap_witness :
    sysS1W.activeWs = 2
    ∧ sysS0W.activeWs ∈ sysS1W.closedWs
    ∧ (∀ steps s2, runSteps sysS1W steps = some s2 →
        sysS0W.activeWs ∈ s2.closedWs
        ∧ (∀ tid fr, SysStep.deliverFrame tid fr ∈ steps → tid ≠ sysS0W.activeWs)
        ∧ ((∀ n, SysStep.handoff n ∉ steps) →
            s2.activeWs = 2
            ∧ ∀ tid fr, SysStep.deliverFrame tid fr ∈ steps → tid = 2))
    ∧ (∀ u st u1, sysStep u st = some u1 → (∀ n, st ≠ SysStep.handoff n) →
        u1.activeWs = u.activeWs) :=
  c3_handoff_swap sysS0W sysS1W 2 (by decide)

end Twitch
